import Mathlib

/-!
Shallow embedding of `src/notebooks/utils/functions.py` (`clean_uber_data`).

A pandas DataFrame is modelled as a list of rows together with the list of its
column names.  A numeric cell is `Option ℚ` where `none` stands for a missing
value (NaN); pandas comparisons against NaN are false, which the `cmp*` helpers
encode.  The `pickup_datetime` cell holds the result of
`pd.to_datetime(_, errors := coerce)`: `none` is NaT (the raw value did not
parse), `some t` is a parsed timestamp, so re-running the conversion is the
identity.  `geodesic(...).miles` from geopy is an external library function; it
is modelled as an opaque total function `dist` of the four coordinates, passed
as a parameter.  Accessing a column that is absent from the frame raises a
KeyError in pandas; the embedding returns `Except.error`.  Because the source
mutates its argument in place (lines 25-26 overwrite `pickup_datetime` and add
`pickup_hour` to the caller's frame), the embedding returns the post-call state
of the argument as the first component of the result triple.
-/

namespace UberCleaning

/-- A parsed timestamp.  The only piece of it the source reads is the hour
component (line 26, `.dt.hour`). -/
structure Timestamp where
  hour : Nat
deriving DecidableEq

/-- One row of the Uber dataset.  Required columns of
`clean_uber_data` plus the two derived columns (`pickup_hour`,
`distance_miles`), which are `none` until computed. -/
structure Row where
  pickup_datetime : Option Timestamp
  pickup_longitude : Option ℚ
  pickup_latitude : Option ℚ
  dropoff_longitude : Option ℚ
  dropoff_latitude : Option ℚ
  fare_amount : Option ℚ
  passenger_count : Option ℚ
  pickup_hour : Option Nat := none
  distance_miles : Option ℚ := none
deriving DecidableEq

/-- A DataFrame: its column names (schema) and its rows in order. -/
structure DataFrame where
  cols : List String
  rows : List Row
deriving DecidableEq

/-- Column assignment `df[c] = ...` on the schema: a new column is appended at
the end, an existing one is overwritten in place. -/
def addCol (cs : List String) (c : String) : List String :=
  if c ∈ cs then cs else cs ++ [c]

/-- Pandas semantics of `series <= k` on a possibly missing cell: a comparison
with NaN is false. -/
def cmpLe (x : Option ℚ) (k : ℚ) : Bool :=
  match x with
  | none => false
  | some v => decide (v ≤ k)

/-- Pandas semantics of `series < k` on a possibly missing cell. -/
def cmpLt (x : Option ℚ) (k : ℚ) : Bool :=
  match x with
  | none => false
  | some v => decide (v < k)

/-- Pandas semantics of `series > k` on a possibly missing cell. -/
def cmpGt (x : Option ℚ) (k : ℚ) : Bool :=
  match x with
  | none => false
  | some v => decide (k < v)

/-- Lines 25-26: convert `pickup_datetime` (the cell already holds the parse
result, so the conversion itself is the identity) and extract the hour into the
`pickup_hour` column; NaT yields a missing hour. -/
def addPickupHour (r : Row) : Row :=
  { r with pickup_hour := r.pickup_datetime.map Timestamp.hour }

/-- Line 29: `df[pickup_datetime].isna()`. -/
def condition_invalid_datetime (r : Row) : Bool :=
  r.pickup_datetime.isNone

/-- Lines 32-37: any of the four coordinates outside the caller's bounds. -/
def condition_out_of_range (LONG_MIN LONG_MAX LAT_MIN LAT_MAX : ℚ) (r : Row) : Bool :=
  cmpLt r.pickup_longitude LONG_MIN || cmpGt r.pickup_longitude LONG_MAX ||
  cmpLt r.pickup_latitude LAT_MIN || cmpGt r.pickup_latitude LAT_MAX ||
  cmpLt r.dropoff_longitude LONG_MIN || cmpGt r.dropoff_longitude LONG_MAX ||
  cmpLt r.dropoff_latitude LAT_MIN || cmpGt r.dropoff_latitude LAT_MAX

/-- Line 40: `fare_amount <= 0`. -/
def condition_invalid_fare (r : Row) : Bool :=
  cmpLe r.fare_amount 0

/-- Lines 43-48: any of the four coordinates is NaN. -/
def condition_nan_coordinates (r : Row) : Bool :=
  r.pickup_longitude.isNone || r.pickup_latitude.isNone ||
  r.dropoff_longitude.isNone || r.dropoff_latitude.isNone

/-- Line 51: `passenger_count <= 0`. -/
def condition_zero_passenger (r : Row) : Bool :=
  cmpLe r.passenger_count 0

/-- Line 52: `passenger_count > 10`. -/
def condition_high_passenger_count (r : Row) : Bool :=
  cmpGt r.passenger_count 10

/-- Lines 55-62: the disjunction of the six stage-one conditions, in the order
of the source. -/
def initial_condition_combined (LONG_MIN LONG_MAX LAT_MIN LAT_MAX : ℚ) (r : Row) : Bool :=
  condition_out_of_range LONG_MIN LONG_MAX LAT_MIN LAT_MAX r ||
  condition_invalid_fare r ||
  condition_nan_coordinates r ||
  condition_zero_passenger r ||
  condition_invalid_datetime r ||
  condition_high_passenger_count r

/-- Lines 71-74: the per-row lambda reads the four coordinate cells and hands
them to geopy's `geodesic(...).miles`, modelled by the opaque function `dist`
(arguments: pickup latitude, pickup longitude, dropoff latitude, dropoff
longitude).  When a coordinate is missing the lambda has no number to hand
over; that branch yields `none`. -/
def geodesicCell (dist : ℚ → ℚ → ℚ → ℚ → ℚ) (r : Row) : Option ℚ :=
  match r.pickup_latitude, r.pickup_longitude, r.dropoff_latitude, r.dropoff_longitude with
  | some plat, some plon, some dlat, some dlon => some (dist plat plon dlat dlon)
  | _, _, _, _ => none

/-- Line 71: store the computed distance in the `distance_miles` column of the
row (overwriting any previous value). -/
def setDistance (dist : ℚ → ℚ → ℚ → ℚ → ℚ) (r : Row) : Row :=
  { r with distance_miles := geodesicCell dist r }

/-- Line 77: `distance_miles <= 0`. -/
def condition_invalid_distance (r : Row) : Bool :=
  cmpLe r.distance_miles 0

/-- The columns `clean_uber_data` reads from its argument, in access order. -/
def requiredCols : List String :=
  ["pickup_datetime", "pickup_longitude", "pickup_latitude",
   "dropoff_longitude", "dropoff_latitude", "fare_amount", "passenger_count"]

/-- Lines 25-26 applied to every row: the state of the caller's rows after the
two in-place column assignments. -/
def mutatedRows (df : DataFrame) : List Row :=
  df.rows.map addPickupHour

/-- Line 65: `dropped = df[initial_condition_combined].copy()`. -/
def droppedStage1 (LONG_MIN LONG_MAX LAT_MIN LAT_MAX : ℚ) (df : DataFrame) : List Row :=
  (mutatedRows df).filter (initial_condition_combined LONG_MIN LONG_MAX LAT_MIN LAT_MAX)

/-- Line 68: `df_cleaned = df[~initial_condition_combined].copy()`. -/
def keptStage1 (LONG_MIN LONG_MAX LAT_MIN LAT_MAX : ℚ) (df : DataFrame) : List Row :=
  (mutatedRows df).filter
    (fun r => !(initial_condition_combined LONG_MIN LONG_MAX LAT_MIN LAT_MAX r))

/-- Lines 71-74: the apply over `df_cleaned` writing `distance_miles`. -/
def withDistance (dist : ℚ → ℚ → ℚ → ℚ → ℚ) (LONG_MIN LONG_MAX LAT_MIN LAT_MAX : ℚ)
    (df : DataFrame) : List Row :=
  (keptStage1 LONG_MIN LONG_MAX LAT_MIN LAT_MAX df).map (setDistance dist)

/-- Line 80, second argument of the concat: `df_cleaned[condition_invalid_distance]`. -/
def droppedStage2 (dist : ℚ → ℚ → ℚ → ℚ → ℚ) (LONG_MIN LONG_MAX LAT_MIN LAT_MAX : ℚ)
    (df : DataFrame) : List Row :=
  (withDistance dist LONG_MIN LONG_MAX LAT_MIN LAT_MAX df).filter condition_invalid_distance

/-- Line 83: `df_cleaned = df_cleaned[~condition_invalid_distance].copy()`. -/
def cleanedRows (dist : ℚ → ℚ → ℚ → ℚ → ℚ) (LONG_MIN LONG_MAX LAT_MIN LAT_MAX : ℚ)
    (df : DataFrame) : List Row :=
  (withDistance dist LONG_MIN LONG_MAX LAT_MIN LAT_MAX df).filter
    (fun r => !(condition_invalid_distance r))

/-- `clean_uber_data(df, LONG_MIN, LONG_MAX, LAT_MIN, LAT_MAX)` from
`src/notebooks/utils/functions.py`.  Returns
`(df after the call, df_cleaned, dropped)`: the first component is the
caller's frame as the in-place assignments of lines 25-26 leave it, the other
two are the function's return values.  If a required column is absent the
subscript raises a KeyError and nothing is returned; the embedding checks the
schema up front, which is observationally the same because the error case
carries no partial result. -/
def clean_uber_data (dist : ℚ → ℚ → ℚ → ℚ → ℚ) (df : DataFrame)
    (LONG_MIN LONG_MAX LAT_MIN LAT_MAX : ℚ) :
    Except String (DataFrame × DataFrame × DataFrame) :=
  if requiredCols.all (fun c => df.cols.contains c) then
    let cols1 := addCol df.cols "pickup_hour"
    Except.ok
      ({ cols := cols1, rows := mutatedRows df },
       { cols := addCol cols1 "distance_miles",
         rows := cleanedRows dist LONG_MIN LONG_MAX LAT_MIN LAT_MAX df },
       { cols := addCol cols1 "distance_miles",
         rows := droppedStage1 LONG_MIN LONG_MAX LAT_MIN LAT_MAX df ++
                 droppedStage2 dist LONG_MIN LONG_MAX LAT_MIN LAT_MAX df })
  else
    Except.error "KeyError"

/-- Erase the two derived columns, keeping every input column; two rows are the
same input row up to the derived columns exactly when their `stripDerived`
images agree. -/
def stripDerived (r : Row) : Row :=
  { r with pickup_hour := none, distance_miles := none }

/-- The stage-two predicate expressed on a row as it stood before the distance
column was written: drop when the recomputed distance is `<= 0`. -/
def dropsByDistance (dist : ℚ → ℚ → ℚ → ℚ → ℚ) (r : Row) : Bool :=
  cmpLe (geodesicCell dist r) 0

/-- A cell holds a value inside `[lo, hi]`. -/
def boundedCell (x : Option ℚ) (lo hi : ℚ) : Bool :=
  match x with
  | none => false
  | some v => decide (lo ≤ v) && decide (v ≤ hi)

/-- A constant stand-in for the geodesic library function, used on concrete
inputs where only positivity of the distance matters. -/
def dist1 : ℚ → ℚ → ℚ → ℚ → ℚ := fun _ _ _ _ => 1

/-- A fully valid concrete row (NYC-like coordinates, fare 10, two
passengers, hour 9).  Concrete rationals are written with `mkRat`. -/
def rowValid : Row :=
  { pickup_datetime := some ⟨9⟩
    pickup_longitude := some (-74)
    pickup_latitude := some (mkRat 81 2)
    dropoff_longitude := some (mkRat (-739) 10)
    dropoff_latitude := some (mkRat 407 10)
    fare_amount := some 10
    passenger_count := some 2 }

/-- `rowValid` with a zero fare: dropped by the stage-one fare predicate. -/
def rowFare0 : Row :=
  { rowValid with fare_amount := some 0 }

/-- Concrete two-row frame: one surviving row, one zero-fare row. -/
def dfPair : DataFrame :=
  { cols := requiredCols, rows := [rowValid, rowFare0] }

/-- Concrete one-row frame holding only `rowValid`. -/
def dfOne : DataFrame :=
  { cols := requiredCols, rows := [rowValid] }

/-- A row with NaN fare and NaN passenger count that passes every other
predicate. -/
def rowNaN : Row :=
  { rowValid with fare_amount := none, passenger_count := none }

/-- Concrete frame whose single row is `rowNaN`. -/
def dfNaN : DataFrame :=
  { cols := requiredCols, rows := [rowNaN] }

/-- Concrete frame exercising the fare and passenger-count boundaries: fares 0
and 0.01, passenger counts 0, 10 and 11, all other fields valid. -/
def dfBoundary : DataFrame :=
  { cols := requiredCols
    rows := [ { rowValid with fare_amount := some 0 },
              { rowValid with fare_amount := some (mkRat 1 100) },
              { rowValid with passenger_count := some 0 },
              { rowValid with passenger_count := some 10 },
              { rowValid with passenger_count := some 11 } ] }

/-- The schema of the caller's frame after the call: `pickup_hour` appended. -/
def colsMutPair : List String :=
  ["pickup_datetime", "pickup_longitude", "pickup_latitude",
   "dropoff_longitude", "dropoff_latitude", "fare_amount", "passenger_count",
   "pickup_hour"]

/-- The schema of the two output frames: `distance_miles` appended too. -/
def colsOutPair : List String :=
  ["pickup_datetime", "pickup_longitude", "pickup_latitude",
   "dropoff_longitude", "dropoff_latitude", "fare_amount", "passenger_count",
   "pickup_hour", "distance_miles"]

/-- The post-call state of `dfPair` (both rows got their derived hour). -/
def mutPair : DataFrame :=
  { cols := colsMutPair
    rows := [ { rowValid with pickup_hour := some 9 },
              { rowFare0 with pickup_hour := some 9 } ] }

/-- The cleaned output of `clean_uber_data dist1 dfPair (-75) (-73) 40 41`. -/
def cleanedPair : DataFrame :=
  { cols := colsOutPair
    rows := [ { rowValid with pickup_hour := some 9, distance_miles := some 1 } ] }

/-- The dropped output of `clean_uber_data dist1 dfPair (-75) (-73) 40 41`. -/
def droppedPair : DataFrame :=
  { cols := colsOutPair
    rows := [ { rowFare0 with pickup_hour := some 9 } ] }

/-- The post-call state of `dfNaN`. -/
def mutNaN : DataFrame :=
  { cols := colsMutPair
    rows := [ { rowNaN with pickup_hour := some 9 } ] }

/-- The cleaned output of `clean_uber_data dist1 dfNaN (-75) (-73) 40 41`: the
NaN-fare, NaN-passenger row survives. -/
def cleanedNaN : DataFrame :=
  { cols := colsOutPair
    rows := [ { rowNaN with pickup_hour := some 9, distance_miles := some 1 } ] }

/-- The dropped output of `clean_uber_data dist1 dfNaN (-75) (-73) 40 41`. -/
def droppedNaN : DataFrame :=
  { cols := colsOutPair, rows := [] }

section InvarianceLemmas

variable (dist dist' : ℚ → ℚ → ℚ → ℚ → ℚ) (b1 b2 b3 b4 : ℚ) (r : Row)

@[simp] lemma initial_condition_addPickupHour :
    initial_condition_combined b1 b2 b3 b4 (addPickupHour r)
      = initial_condition_combined b1 b2 b3 b4 r := rfl

@[simp] lemma initial_condition_setDistance :
    initial_condition_combined b1 b2 b3 b4 (setDistance dist r)
      = initial_condition_combined b1 b2 b3 b4 r := rfl

@[simp] lemma geodesicCell_addPickupHour :
    geodesicCell dist (addPickupHour r) = geodesicCell dist r := rfl

@[simp] lemma geodesicCell_setDistance :
    geodesicCell dist (setDistance dist' r) = geodesicCell dist r := rfl

@[simp] lemma invalid_distance_setDistance :
    condition_invalid_distance (setDistance dist r) = dropsByDistance dist r := rfl

@[simp] lemma dropsByDistance_addPickupHour :
    dropsByDistance dist (addPickupHour r) = dropsByDistance dist r := rfl

@[simp] lemma stripDerived_addPickupHour :
    stripDerived (addPickupHour r) = stripDerived r := rfl

@[simp] lemma stripDerived_setDistance :
    stripDerived (setDistance dist r) = stripDerived r := rfl

@[simp] lemma pickupHour_addPickupHour :
    (addPickupHour r).pickup_hour = r.pickup_datetime.map Timestamp.hour := rfl

@[simp] lemma pickupDatetime_setDistance :
    (setDistance dist r).pickup_datetime = r.pickup_datetime := rfl

@[simp] lemma pickupHour_setDistance :
    (setDistance dist r).pickup_hour = r.pickup_hour := rfl

@[simp] lemma distanceMiles_setDistance :
    (setDistance dist r).distance_miles = geodesicCell dist r := rfl

@[simp] lemma erasePickupHour_addPickupHour :
    ({ addPickupHour r with pickup_hour := none } : Row)
      = { r with pickup_hour := none } := rfl

lemma addPickupHour_eq_self (h : r.pickup_hour = r.pickup_datetime.map Timestamp.hour) :
    addPickupHour r = r := by
  unfold addPickupHour
  rw [← h]

lemma setDistance_eq_self (h : r.distance_miles = geodesicCell dist r) :
    setDistance dist r = r := by
  unfold setDistance
  rw [← h]

end InvarianceLemmas

section ColumnLemmas

lemma mem_addCol_self (cs : List String) (c : String) : c ∈ addCol cs c := by
  unfold addCol
  split
  case isTrue h => exact h
  case isFalse h => exact List.mem_append_right cs (List.mem_singleton.mpr rfl)

lemma mem_addCol_of_mem (cs : List String) (a c : String) (h : a ∈ cs) : a ∈ addCol cs c := by
  unfold addCol
  split
  case isTrue _ => exact h
  case isFalse _ => exact List.mem_append_left _ h

lemma addCol_of_mem (cs : List String) (c : String) (h : c ∈ cs) : addCol cs c = cs := by
  unfold addCol
  exact if_pos h

end ColumnLemmas

section UnfoldingLemmas

/-- The successful branch of `clean_uber_data`, spelled out. -/
lemma clean_uber_data_ok (dist : ℚ → ℚ → ℚ → ℚ → ℚ) (df : DataFrame) (b1 b2 b3 b4 : ℚ)
    (h : requiredCols.all (fun c => df.cols.contains c) = true) :
    clean_uber_data dist df b1 b2 b3 b4 =
      Except.ok
        ({ cols := addCol df.cols "pickup_hour", rows := mutatedRows df },
         { cols := addCol (addCol df.cols "pickup_hour") "distance_miles",
           rows := cleanedRows dist b1 b2 b3 b4 df },
         { cols := addCol (addCol df.cols "pickup_hour") "distance_miles",
           rows := droppedStage1 b1 b2 b3 b4 df ++ droppedStage2 dist b1 b2 b3 b4 df }) := by
  unfold clean_uber_data
  rw [if_pos h]

/-- A successful call forces the schema check to have passed. -/
lemma cols_ok_of_clean_ok (dist : ℚ → ℚ → ℚ → ℚ → ℚ) (df : DataFrame) (b1 b2 b3 b4 : ℚ)
    (t : DataFrame × DataFrame × DataFrame)
    (h : clean_uber_data dist df b1 b2 b3 b4 = Except.ok t) :
    requiredCols.all (fun c => df.cols.contains c) = true := by
  by_cases hc : requiredCols.all (fun c => df.cols.contains c) = true
  · exact hc
  · rw [clean_uber_data, if_neg hc] at h
    exact absurd h (by simp)

/-- The three output frames of a successful call, componentwise. -/
lemma clean_uber_data_ok_elim (dist : ℚ → ℚ → ℚ → ℚ → ℚ) (df : DataFrame) (b1 b2 b3 b4 : ℚ)
    (m c d : DataFrame)
    (h : clean_uber_data dist df b1 b2 b3 b4 = Except.ok (m, c, d)) :
    m = { cols := addCol df.cols "pickup_hour", rows := mutatedRows df } ∧
    c = { cols := addCol (addCol df.cols "pickup_hour") "distance_miles",
          rows := cleanedRows dist b1 b2 b3 b4 df } ∧
    d = { cols := addCol (addCol df.cols "pickup_hour") "distance_miles",
          rows := droppedStage1 b1 b2 b3 b4 df ++ droppedStage2 dist b1 b2 b3 b4 df } := by
  have hc := cols_ok_of_clean_ok dist df b1 b2 b3 b4 (m, c, d) h
  rw [clean_uber_data_ok dist df b1 b2 b3 b4 hc] at h
  simp only [Except.ok.injEq, Prod.mk.injEq] at h
  exact ⟨h.1.symm, h.2.1.symm, h.2.2.symm⟩

end UnfoldingLemmas

section StrippedRowsLemmas

/-- Up to the derived columns, stage-one dropped rows are the in-order
selection of the input rows matching the combined condition. -/
lemma stripped_droppedStage1 (b1 b2 b3 b4 : ℚ) (df : DataFrame) :
    (droppedStage1 b1 b2 b3 b4 df).map stripDerived
      = (df.rows.filter (initial_condition_combined b1 b2 b3 b4)).map stripDerived := by
  simp [droppedStage1, mutatedRows, List.filter_map, List.map_map, Function.comp_def]

/-- Up to the derived columns, stage-one survivors are the in-order selection
of the input rows not matching the combined condition. -/
lemma stripped_keptStage1 (b1 b2 b3 b4 : ℚ) (df : DataFrame) :
    (keptStage1 b1 b2 b3 b4 df).map stripDerived
      = (df.rows.filter (fun r => !(initial_condition_combined b1 b2 b3 b4 r))).map stripDerived := by
  simp [keptStage1, mutatedRows, List.filter_map, List.map_map, Function.comp_def]

/-- Up to the derived columns, the cleaned rows are the stage-one survivors
further filtered, in order, by positivity of the recomputed distance. -/
lemma stripped_cleanedRows (dist : ℚ → ℚ → ℚ → ℚ → ℚ) (b1 b2 b3 b4 : ℚ) (df : DataFrame) :
    (cleanedRows dist b1 b2 b3 b4 df).map stripDerived
      = ((df.rows.filter (fun r => !(initial_condition_combined b1 b2 b3 b4 r))).filter
          (fun r => !(dropsByDistance dist r))).map stripDerived := by
  simp [cleanedRows, withDistance, keptStage1, mutatedRows, List.filter_map, List.map_map,
    Function.comp_def]

/-- Up to the derived columns, the stage-two dropped rows are the stage-one
survivors whose recomputed distance is non-positive, in order. -/
lemma stripped_droppedStage2 (dist : ℚ → ℚ → ℚ → ℚ → ℚ) (b1 b2 b3 b4 : ℚ) (df : DataFrame) :
    (droppedStage2 dist b1 b2 b3 b4 df).map stripDerived
      = ((df.rows.filter (fun r => !(initial_condition_combined b1 b2 b3 b4 r))).filter
          (dropsByDistance dist)).map stripDerived := by
  simp [droppedStage2, withDistance, keptStage1, mutatedRows, List.filter_map, List.map_map,
    Function.comp_def]

end StrippedRowsLemmas

section RowFactLemmas

/-- Mapping a function that is the identity on every element of a list is the
identity on the list. -/
lemma map_eq_self_of_mem {α : Type} {l : List α} {f : α → α} (h : ∀ a ∈ l, f a = a) :
    l.map f = l := by
  induction l with
  | nil => rfl
  | cons a t ih =>
    rw [List.map_cons, h a (List.mem_cons_self a t),
      ih (fun b hb => h b (List.mem_cons_of_mem a hb))]

lemma isSome_of_isNone_false {α : Type} (x : Option α) (h : x.isNone = false) :
    x.isSome = true := by
  cases x with
  | none => simp at h
  | some v => rfl

lemma boundedCell_of (x : Option ℚ) (lo hi : ℚ) (hn : x.isNone = false)
    (hlt : cmpLt x lo = false) (hgt : cmpGt x hi = false) :
    boundedCell x lo hi = true := by
  cases x with
  | none => simp at hn
  | some v =>
    simp only [cmpLt, cmpGt, decide_eq_false_iff_not, not_lt] at hlt hgt
    simp only [boundedCell, Bool.and_eq_true, decide_eq_true_eq]
    exact ⟨hlt, hgt⟩

lemma cmpGt_zero_of_cmpLe_false (x : Option ℚ) (hs : x.isSome = true)
    (h : cmpLe x 0 = false) : cmpGt x 0 = true := by
  cases x with
  | none => simp [Option.isSome] at hs
  | some v =>
    simp only [cmpLe, decide_eq_false_iff_not, not_le] at h
    simp only [cmpGt, decide_eq_true_eq]
    exact h

lemma geodesicCell_isSome (dist : ℚ → ℚ → ℚ → ℚ → ℚ) (r : Row)
    (h1 : r.pickup_latitude.isSome = true) (h2 : r.pickup_longitude.isSome = true)
    (h3 : r.dropoff_latitude.isSome = true) (h4 : r.dropoff_longitude.isSome = true) :
    (geodesicCell dist r).isSome = true := by
  obtain ⟨a, ha⟩ := Option.isSome_iff_exists.mp h1
  obtain ⟨b, hb⟩ := Option.isSome_iff_exists.mp h2
  obtain ⟨e, he⟩ := Option.isSome_iff_exists.mp h3
  obtain ⟨f, hf⟩ := Option.isSome_iff_exists.mp h4
  simp [geodesicCell, ha, hb, he, hf]

/-- Everything that holds of a row sitting in the final cleaned collection: it
passed both filter stages, its derived hour is consistent with its timestamp,
and its stored distance is the recomputed geodesic value. -/
lemma cleanedRows_facts (dist : ℚ → ℚ → ℚ → ℚ → ℚ) (b1 b2 b3 b4 : ℚ) (df : DataFrame)
    (r : Row) (h : r ∈ cleanedRows dist b1 b2 b3 b4 df) :
    initial_condition_combined b1 b2 b3 b4 r = false ∧
    condition_invalid_distance r = false ∧
    r.pickup_hour = r.pickup_datetime.map Timestamp.hour ∧
    r.distance_miles = geodesicCell dist r := by
  unfold cleanedRows withDistance keptStage1 mutatedRows at h
  rw [List.mem_filter] at h
  obtain ⟨hw, hcid⟩ := h
  rw [List.mem_map] at hw
  obtain ⟨r1, hr1, rfl⟩ := hw
  rw [List.mem_filter] at hr1
  obtain ⟨hr1m, hic⟩ := hr1
  rw [List.mem_map] at hr1m
  obtain ⟨r0, _, rfl⟩ := hr1m
  refine ⟨?_, ?_, rfl, rfl⟩
  · simpa using hic
  · simpa using hcid

/-- Bool decomposition of a failed combined stage-one condition. -/
lemma initial_condition_false_elim (b1 b2 b3 b4 : ℚ) (r : Row)
    (h : initial_condition_combined b1 b2 b3 b4 r = false) :
    condition_out_of_range b1 b2 b3 b4 r = false ∧
    condition_invalid_fare r = false ∧
    condition_nan_coordinates r = false ∧
    condition_zero_passenger r = false ∧
    condition_invalid_datetime r = false ∧
    condition_high_passenger_count r = false := by
  simp only [initial_condition_combined, Bool.or_eq_false_iff] at h
  exact ⟨h.1.1.1.1.1, h.1.1.1.1.2, h.1.1.1.2, h.1.1.2, h.1.2, h.2⟩

end RowFactLemmas

/-- C1: for every input frame and bounds on which the call succeeds, the two
returned row collections partition the input rows: their lengths sum to the
input length, and, identifying rows up to the two derived columns, the
concatenation of cleaned and dropped is a permutation of the input rows — so
every input row appears exactly once across the two outputs, even when it
fails several predicates. -/
theorem claim_C1_partition (dist : ℚ → ℚ → ℚ → ℚ → ℚ) (df : DataFrame) (b1 b2 b3 b4 : ℚ)
    (m c d : DataFrame)
    (h : clean_uber_data dist df b1 b2 b3 b4 = Except.ok (m, c, d)) :
    c.rows.length + d.rows.length = df.rows.length ∧
    List.Perm ((c.rows ++ d.rows).map stripDerived) (df.rows.map stripDerived) := by
  obtain ⟨hm, hc, hd⟩ := clean_uber_data_ok_elim dist df b1 b2 b3 b4 m c d h
  subst hc
  subst hd
  have hperm : List.Perm
      ((cleanedRows dist b1 b2 b3 b4 df ++
        (droppedStage1 b1 b2 b3 b4 df ++ droppedStage2 dist b1 b2 b3 b4 df)).map stripDerived)
      (df.rows.map stripDerived) := by
    rw [List.map_append, List.map_append, stripped_cleanedRows, stripped_droppedStage1,
      stripped_droppedStage2]
    have pI : List.Perm
        ((df.rows.filter (initial_condition_combined b1 b2 b3 b4)).map stripDerived ++
          (df.rows.filter (fun r => !(initial_condition_combined b1 b2 b3 b4 r))).map stripDerived)
        (df.rows.map stripDerived) := by
      rw [← List.map_append]
      exact (List.filter_append_perm (initial_condition_combined b1 b2 b3 b4) df.rows).map
        stripDerived
    refine List.Perm.trans List.perm_append_comm ?_
    rw [List.append_assoc]
    refine List.Perm.trans (List.Perm.append_left _ ?_) pI
    rw [← List.map_append]
    exact (List.filter_append_perm (dropsByDistance dist) _).map stripDerived
  refine ⟨?_, hperm⟩
  have hlen := hperm.length_eq
  simpa [List.length_append, List.length_map] using hlen

/-- Witness for C1 at a concrete input: two rows, one cleaned, one dropped. -/
theorem claim_C1_partition_witness :
    cleanedPair.rows.length + droppedPair.rows.length = dfPair.rows.length ∧
    List.Perm ((cleanedPair.rows ++ droppedPair.rows).map stripDerived)
      (dfPair.rows.map stripDerived) :=
  claim_C1_partition dist1 dfPair (-75) (-73) 40 41 mutPair cleanedPair droppedPair (by rfl)

/-- C7: row order is preserved through filtering.  Identifying rows up to the
derived columns, the cleaned rows are exactly the input rows that pass both
stages, in their original relative order (an in-order double filter of the
input, and a sublist of it), and the dropped rows are the stage-one rejects in
original order followed by the stage-two (distance) rejects in original
order. -/
theorem claim_C7_order (dist : ℚ → ℚ → ℚ → ℚ → ℚ) (df : DataFrame) (b1 b2 b3 b4 : ℚ)
    (m c d : DataFrame)
    (h : clean_uber_data dist df b1 b2 b3 b4 = Except.ok (m, c, d)) :
    c.rows.map stripDerived
      = ((df.rows.filter (fun r => !(initial_condition_combined b1 b2 b3 b4 r))).filter
          (fun r => !(dropsByDistance dist r))).map stripDerived ∧
    d.rows.map stripDerived
      = (df.rows.filter (initial_condition_combined b1 b2 b3 b4)).map stripDerived ++
        ((df.rows.filter (fun r => !(initial_condition_combined b1 b2 b3 b4 r))).filter
          (dropsByDistance dist)).map stripDerived ∧
    List.Sublist (c.rows.map stripDerived) (df.rows.map stripDerived) := by
  obtain ⟨hm, hc, hd⟩ := clean_uber_data_ok_elim dist df b1 b2 b3 b4 m c d h
  subst hc
  subst hd
  refine ⟨stripped_cleanedRows dist b1 b2 b3 b4 df, ?_, ?_⟩
  · rw [List.map_append, stripped_droppedStage1, stripped_droppedStage2]
  · rw [stripped_cleanedRows dist b1 b2 b3 b4 df]
    exact List.Sublist.map stripDerived
      ((List.filter_sublist _).trans (List.filter_sublist df.rows))

/-- Witness for C7 at a concrete input: one cleaned row, one dropped row. -/
theorem claim_C7_order_witness :
    cleanedPair.rows.map stripDerived
      = ((dfPair.rows.filter (fun r => !(initial_condition_combined (-75) (-73) 40 41 r))).filter
          (fun r => !(dropsByDistance dist1 r))).map stripDerived ∧
    droppedPair.rows.map stripDerived
      = (dfPair.rows.filter (initial_condition_combined (-75) (-73) 40 41)).map stripDerived ++
        ((dfPair.rows.filter (fun r => !(initial_condition_combined (-75) (-73) 40 41 r))).filter
          (dropsByDistance dist1)).map stripDerived ∧
    List.Sublist (cleanedPair.rows.map stripDerived) (dfPair.rows.map stripDerived) :=
  claim_C7_order dist1 dfPair (-75) (-73) 40 41 mutPair cleanedPair droppedPair (by rfl)

/-- C2 as stated is false on the code: a row whose `fare_amount` is NaN (and
whose `passenger_count` is NaN) passes `fare_amount <= 0` and both
passenger-count comparisons, because pandas comparisons with NaN are false, and
lands in `cleaned` where neither `fare_amount > 0` nor
`1 <= passenger_count <= 10` holds. -/
theorem claim_C2_counterexample :
    ¬ (∀ m c d, clean_uber_data dist1 dfNaN (-75) (-73) 40 41 = Except.ok (m, c, d) →
        ∀ r ∈ c.rows, cmpGt r.fare_amount 0 = true ∧
          boundedCell r.passenger_count 1 10 = true) := by
  intro hcl
  have hrow := hcl _ _ _ rfl
  revert hrow
  decide

/-- C2 amended: every row of the cleaned set has a parseable timestamp, all
four coordinates non-missing and within the caller's bounds, a fare that is
not `<= 0` (a missing fare also passes), a passenger count that is neither
`<= 0` nor `> 10` (a missing count also passes), and a positive
`distance_miles`. -/
theorem claim_C2_amended (dist : ℚ → ℚ → ℚ → ℚ → ℚ) (df : DataFrame) (b1 b2 b3 b4 : ℚ)
    (m c d : DataFrame)
    (h : clean_uber_data dist df b1 b2 b3 b4 = Except.ok (m, c, d)) :
    ∀ r ∈ c.rows,
      r.pickup_datetime.isSome = true ∧
      boundedCell r.pickup_longitude b1 b2 = true ∧
      boundedCell r.pickup_latitude b3 b4 = true ∧
      boundedCell r.dropoff_longitude b1 b2 = true ∧
      boundedCell r.dropoff_latitude b3 b4 = true ∧
      condition_invalid_fare r = false ∧
      condition_zero_passenger r = false ∧
      condition_high_passenger_count r = false ∧
      cmpGt r.distance_miles 0 = true := by
  obtain ⟨hm, hc, hd⟩ := clean_uber_data_ok_elim dist df b1 b2 b3 b4 m c d h
  subst hc
  intro r hr
  obtain ⟨hic, hcid, hhour, hdm⟩ := cleanedRows_facts dist b1 b2 b3 b4 df r hr
  obtain ⟨hoor, hfare, hnan, hzp, hdt, hhp⟩ := initial_condition_false_elim b1 b2 b3 b4 r hic
  simp only [condition_nan_coordinates, Bool.or_eq_false_iff] at hnan
  obtain ⟨⟨⟨hn1, hn2⟩, hn3⟩, hn4⟩ := hnan
  simp only [condition_out_of_range, Bool.or_eq_false_iff] at hoor
  obtain ⟨⟨⟨⟨⟨⟨⟨ho1, ho2⟩, ho3⟩, ho4⟩, ho5⟩, ho6⟩, ho7⟩, ho8⟩ := hoor
  have hdms : r.distance_miles.isSome = true := by
    rw [hdm]
    exact geodesicCell_isSome dist r (isSome_of_isNone_false _ hn2)
      (isSome_of_isNone_false _ hn1) (isSome_of_isNone_false _ hn4)
      (isSome_of_isNone_false _ hn3)
  refine ⟨?_, ?_, ?_, ?_, ?_, hfare, hzp, hhp, ?_⟩
  · simpa [condition_invalid_datetime, Option.isNone] using
      isSome_of_isNone_false _ (by simpa [condition_invalid_datetime] using hdt)
  · exact boundedCell_of _ _ _ hn1 ho1 ho2
  · exact boundedCell_of _ _ _ hn2 ho3 ho4
  · exact boundedCell_of _ _ _ hn3 ho5 ho6
  · exact boundedCell_of _ _ _ hn4 ho7 ho8
  · exact cmpGt_zero_of_cmpLe_false _ hdms (by simpa [condition_invalid_distance] using hcid)

/-- Witness for the amended C2 at a concrete input, instantiated at the one
cleaned row. -/
theorem claim_C2_amended_witness :
    ({ rowValid with pickup_hour := some 9, distance_miles := some 1 } : Row).pickup_datetime.isSome = true ∧
    boundedCell ({ rowValid with pickup_hour := some 9, distance_miles := some 1 } : Row).pickup_longitude (-75) (-73) = true ∧
    boundedCell ({ rowValid with pickup_hour := some 9, distance_miles := some 1 } : Row).pickup_latitude 40 41 = true ∧
    boundedCell ({ rowValid with pickup_hour := some 9, distance_miles := some 1 } : Row).dropoff_longitude (-75) (-73) = true ∧
    boundedCell ({ rowValid with pickup_hour := some 9, distance_miles := some 1 } : Row).dropoff_latitude 40 41 = true ∧
    condition_invalid_fare { rowValid with pickup_hour := some 9, distance_miles := some 1 } = false ∧
    condition_zero_passenger { rowValid with pickup_hour := some 9, distance_miles := some 1 } = false ∧
    condition_high_passenger_count { rowValid with pickup_hour := some 9, distance_miles := some 1 } = false ∧
    cmpGt ({ rowValid with pickup_hour := some 9, distance_miles := some 1 } : Row).distance_miles 0 = true :=
  claim_C2_amended dist1 dfPair (-75) (-73) 40 41 mutPair cleanedPair droppedPair (by rfl)
    { rowValid with pickup_hour := some 9, distance_miles := some 1 } (by decide)

/-- C3 as stated is false on the code: the call mutates its argument.  Lines
25-26 overwrite `pickup_datetime` and add the derived `pickup_hour` column to
the caller's frame, so after the call the argument differs from the input. -/
theorem claim_C3_counterexample :
    ¬ (∀ m c d, clean_uber_data dist1 dfOne (-75) (-73) 40 41 = Except.ok (m, c, d) →
        m = dfOne) := by
  intro hcl
  have hmut := hcl _ _ _ rfl
  revert hmut
  decide

/-- C3 amended: the call mutates the caller's frame exactly by the lines 25-26
assignments — the `pickup_hour` column is appended to its schema and set to
the derived hour in every row — and in no other way: erasing `pickup_hour`
recovers every input row unchanged (in particular `distance_miles` is written
only to the two output copies, never to the input). -/
theorem claim_C3_amended (dist : ℚ → ℚ → ℚ → ℚ → ℚ) (df : DataFrame) (b1 b2 b3 b4 : ℚ)
    (m c d : DataFrame)
    (h : clean_uber_data dist df b1 b2 b3 b4 = Except.ok (m, c, d)) :
    m.cols = addCol df.cols "pickup_hour" ∧
    m.rows.map (fun r => { r with pickup_hour := none })
      = df.rows.map (fun r => { r with pickup_hour := none }) ∧
    m.rows.map Row.pickup_hour = df.rows.map (fun r => r.pickup_datetime.map Timestamp.hour) := by
  obtain ⟨hm, hc, hd⟩ := clean_uber_data_ok_elim dist df b1 b2 b3 b4 m c d h
  subst hm
  refine ⟨rfl, ?_, ?_⟩
  · simp [mutatedRows, List.map_map, Function.comp_def]
  · simp [mutatedRows, List.map_map, Function.comp_def]

/-- Witness for the amended C3 at a concrete input. -/
theorem claim_C3_amended_witness :
    mutPair.cols = addCol dfPair.cols "pickup_hour" ∧
    mutPair.rows.map (fun r => { r with pickup_hour := none })
      = dfPair.rows.map (fun r => { r with pickup_hour := none }) ∧
    mutPair.rows.map Row.pickup_hour
      = dfPair.rows.map (fun r => r.pickup_datetime.map Timestamp.hour) :=
  claim_C3_amended dist1 dfPair (-75) (-73) 40 41 mutPair cleanedPair droppedPair (by rfl)

/-- A frame all of whose rows already carry consistent derived columns and
pass every predicate is a fixpoint of the cleaning function, with an empty
dropped set. -/
lemma clean_uber_data_fixpoint (dist : ℚ → ℚ → ℚ → ℚ → ℚ) (b1 b2 b3 b4 : ℚ) (F : DataFrame)
    (hcolsF : requiredCols.all (fun s => F.cols.contains s) = true)
    (hph : "pickup_hour" ∈ F.cols) (hdm : "distance_miles" ∈ F.cols)
    (hfacts : ∀ r ∈ F.rows,
      initial_condition_combined b1 b2 b3 b4 r = false ∧
      condition_invalid_distance r = false ∧
      r.pickup_hour = r.pickup_datetime.map Timestamp.hour ∧
      r.distance_miles = geodesicCell dist r) :
    clean_uber_data dist F b1 b2 b3 b4 = Except.ok (F, F, { cols := F.cols, rows := [] }) := by
  have hcolsph : addCol F.cols "pickup_hour" = F.cols := addCol_of_mem _ _ hph
  have hmut : mutatedRows F = F.rows :=
    map_eq_self_of_mem (fun r hr => addPickupHour_eq_self r (hfacts r hr).2.2.1)
  have hkept : keptStage1 b1 b2 b3 b4 F = F.rows := by
    unfold keptStage1
    rw [hmut]
    exact List.filter_eq_self.mpr (fun r hr => by simp [(hfacts r hr).1])
  have hwd : withDistance dist b1 b2 b3 b4 F = F.rows := by
    unfold withDistance
    rw [hkept]
    exact map_eq_self_of_mem (fun r hr => setDistance_eq_self dist r (hfacts r hr).2.2.2)
  have hd1 : droppedStage1 b1 b2 b3 b4 F = [] := by
    unfold droppedStage1
    rw [hmut]
    exact List.filter_eq_nil_iff.mpr (fun r hr => by simp [(hfacts r hr).1])
  have hd2 : droppedStage2 dist b1 b2 b3 b4 F = [] := by
    unfold droppedStage2
    rw [hwd]
    exact List.filter_eq_nil_iff.mpr (fun r hr => by simp [(hfacts r hr).2.1])
  have hcl : cleanedRows dist b1 b2 b3 b4 F = F.rows := by
    unfold cleanedRows
    rw [hwd]
    exact List.filter_eq_self.mpr (fun r hr => by simp [(hfacts r hr).2.1])
  rw [clean_uber_data_ok dist F b1 b2 b3 b4 hcolsF, hcolsph, addCol_of_mem _ _ hdm, hmut,
    hd1, hd2, hcl]
  rfl

/-- C4: cleaning is idempotent.  Running `clean_uber_data` again on the
cleaned output with the same bounds (and the same distance function) returns
that cleaned frame unchanged — it is also left unmutated — together with a
dropped frame holding no rows. -/
theorem claim_C4_idempotent (dist : ℚ → ℚ → ℚ → ℚ → ℚ) (df : DataFrame) (b1 b2 b3 b4 : ℚ)
    (m c d : DataFrame)
    (h : clean_uber_data dist df b1 b2 b3 b4 = Except.ok (m, c, d)) :
    clean_uber_data dist c b1 b2 b3 b4 = Except.ok (c, c, { cols := c.cols, rows := [] }) := by
  have hcols := cols_ok_of_clean_ok dist df b1 b2 b3 b4 (m, c, d) h
  obtain ⟨hm, hc, hd⟩ := clean_uber_data_ok_elim dist df b1 b2 b3 b4 m c d h
  subst hc
  apply clean_uber_data_fixpoint
  · rw [List.all_eq_true] at hcols ⊢
    intro x hx
    have h1 : x ∈ df.cols := List.elem_iff.mp (hcols x hx)
    exact List.elem_iff.mpr (mem_addCol_of_mem _ _ _ (mem_addCol_of_mem _ _ _ h1))
  · exact mem_addCol_of_mem _ _ _ (mem_addCol_self _ _)
  · exact mem_addCol_self _ _
  · exact fun r hr => cleanedRows_facts dist b1 b2 b3 b4 df r hr

/-- Witness for C4 at a concrete input: re-cleaning the cleaned frame. -/
theorem claim_C4_idempotent_witness :
    clean_uber_data dist1 cleanedPair (-75) (-73) 40 41
      = Except.ok (cleanedPair, cleanedPair, { cols := cleanedPair.cols, rows := [] }) :=
  claim_C4_idempotent dist1 dfPair (-75) (-73) 40 41 mutPair cleanedPair droppedPair (by rfl)

/-- C5: boundary behaviour of the fare and passenger-count predicates on a
concrete frame whose five rows differ only in those two fields: the rows with
`fare_amount = 0.01` and `passenger_count = 10` are cleaned, the rows with
`fare_amount = 0`, `passenger_count = 0` and `passenger_count = 11` are
dropped. -/
theorem claim_C5_boundaries :
    (clean_uber_data dist1 dfBoundary (-75) (-73) 40 41).toOption.map
      (fun t => (t.2.1.rows.map Row.fare_amount, t.2.1.rows.map Row.passenger_count,
                 t.2.2.rows.map Row.fare_amount, t.2.2.rows.map Row.passenger_count))
      = some ([some (mkRat 1 100), some 10], [some 2, some 10],
              [some 0, some 10, some 10], [some 2, some 0, some 11]) := by
  decide

/-- C6: the call succeeds exactly when every required column is present in the
input schema; when one is absent the whole call fails with the KeyError and no
partial result is returned, and this schema error is the only failure mode —
whatever the row values and bounds are, a frame with all required columns
yields a result. -/
theorem claim_C6_schema_error (dist : ℚ → ℚ → ℚ → ℚ → ℚ) (df : DataFrame) (b1 b2 b3 b4 : ℚ) :
    ((clean_uber_data dist df b1 b2 b3 b4).toOption.isSome
        = requiredCols.all (fun s => df.cols.contains s)) ∧
    (clean_uber_data dist df b1 b2 b3 b4 = Except.error "KeyError" ∨
      (clean_uber_data dist df b1 b2 b3 b4).toOption.isSome = true) := by
  by_cases hb : requiredCols.all (fun s => df.cols.contains s) = true
  · rw [clean_uber_data_ok dist df b1 b2 b3 b4 hb]
    refine ⟨?_, Or.inr (by simp [Except.toOption])⟩
    simp only [Except.toOption, Option.isSome_some]
    exact hb.symm
  · have hb' : requiredCols.all (fun s => df.cols.contains s) = false :=
      Bool.eq_false_iff.mpr hb
    rw [clean_uber_data, if_neg hb]
    refine ⟨?_, Or.inl rfl⟩
    simp only [Except.toOption, Option.isSome_none]
    exact hb'.symm

/-- C9: pandas NaN comparison semantics route rows with missing fare or
passenger count into the cleaned set.  When the fare is missing the
`fare_amount <= 0` comparison is false, when the passenger count is missing
both `passenger_count <= 0` and `passenger_count > 10` are false, and such a
row — all other predicates passing — ends up in the cleaned rows rather than
dropped or rejected. -/
theorem claim_C9_nan_passes (dist : ℚ → ℚ → ℚ → ℚ → ℚ) (df : DataFrame) (b1 b2 b3 b4 : ℚ)
    (m c d : DataFrame) (r : Row)
    (h : clean_uber_data dist df b1 b2 b3 b4 = Except.ok (m, c, d))
    (hmem : r ∈ df.rows)
    (_hmiss : r.fare_amount = none ∨ r.passenger_count = none)
    (hfare : r.fare_amount = none ∨ condition_invalid_fare r = false)
    (hpc : r.passenger_count = none ∨
      (condition_zero_passenger r = false ∧ condition_high_passenger_count r = false))
    (hoor : condition_out_of_range b1 b2 b3 b4 r = false)
    (hnan : condition_nan_coordinates r = false)
    (hdt : condition_invalid_datetime r = false)
    (hdist : dropsByDistance dist r = false) :
    (r.fare_amount = none → condition_invalid_fare r = false) ∧
    (r.passenger_count = none →
      condition_zero_passenger r = false ∧ condition_high_passenger_count r = false) ∧
    setDistance dist (addPickupHour r) ∈ c.rows := by
  have hf : condition_invalid_fare r = false := by
    rcases hfare with hn | hok
    · simp [condition_invalid_fare, cmpLe, hn]
    · exact hok
  have hzh : condition_zero_passenger r = false ∧ condition_high_passenger_count r = false := by
    rcases hpc with hn | hok
    · constructor
      · simp [condition_zero_passenger, cmpLe, hn]
      · simp [condition_high_passenger_count, cmpGt, hn]
    · exact hok
  have hic : initial_condition_combined b1 b2 b3 b4 r = false := by
    simp [initial_condition_combined, hoor, hf, hnan, hzh.1, hdt, hzh.2]
  obtain ⟨hm, hc, hd⟩ := clean_uber_data_ok_elim dist df b1 b2 b3 b4 m c d h
  subst hc
  refine ⟨?_, ?_, ?_⟩
  · intro hn
    simp [condition_invalid_fare, cmpLe, hn]
  · intro hn
    constructor
    · simp [condition_zero_passenger, cmpLe, hn]
    · simp [condition_high_passenger_count, cmpGt, hn]
  · have h1 : addPickupHour r ∈ mutatedRows df := List.mem_map_of_mem addPickupHour hmem
    have h2 : addPickupHour r ∈ keptStage1 b1 b2 b3 b4 df :=
      List.mem_filter.mpr ⟨h1, by simp [hic]⟩
    have h3 : setDistance dist (addPickupHour r) ∈ withDistance dist b1 b2 b3 b4 df :=
      List.mem_map_of_mem (setDistance dist) h2
    exact List.mem_filter.mpr ⟨h3, by simp [hdist]⟩

/-- Witness for C9 at a concrete input: the NaN-fare, NaN-passenger row lands
in the cleaned rows. -/
theorem claim_C9_nan_passes_witness :
    (rowNaN.fare_amount = none → condition_invalid_fare rowNaN = false) ∧
    (rowNaN.passenger_count = none →
      condition_zero_passenger rowNaN = false ∧
      condition_high_passenger_count rowNaN = false) ∧
    setDistance dist1 (addPickupHour rowNaN) ∈ cleanedNaN.rows :=
  claim_C9_nan_passes dist1 dfNaN (-75) (-73) 40 41 mutNaN cleanedNaN droppedNaN rowNaN
    (by rfl) (by decide) (by decide) (by decide) (by decide) (by decide) (by decide)
    (by decide) (by decide)

/-- C10: the distance computation runs only over the stage-one survivors, and
every such row hands the geodesic function four non-missing coordinates that
lie within the caller's bounds — the missing-coordinate case of the distance
step cannot occur. -/
theorem claim_C10_geodesic_inputs (dist : ℚ → ℚ → ℚ → ℚ → ℚ) (b1 b2 b3 b4 : ℚ)
    (df : DataFrame) (r : Row)
    (h : r ∈ keptStage1 b1 b2 b3 b4 df) :
    r.pickup_latitude.isSome = true ∧ r.pickup_longitude.isSome = true ∧
    r.dropoff_latitude.isSome = true ∧ r.dropoff_longitude.isSome = true ∧
    boundedCell r.pickup_longitude b1 b2 = true ∧
    boundedCell r.pickup_latitude b3 b4 = true ∧
    boundedCell r.dropoff_longitude b1 b2 = true ∧
    boundedCell r.dropoff_latitude b3 b4 = true ∧
    (geodesicCell dist r).isSome = true := by
  unfold keptStage1 mutatedRows at h
  rw [List.mem_filter] at h
  obtain ⟨_, hic⟩ := h
  have hic' : initial_condition_combined b1 b2 b3 b4 r = false := by simpa using hic
  obtain ⟨hoor, _, hnan, _, _, _⟩ := initial_condition_false_elim b1 b2 b3 b4 r hic'
  simp only [condition_nan_coordinates, Bool.or_eq_false_iff] at hnan
  obtain ⟨⟨⟨hn1, hn2⟩, hn3⟩, hn4⟩ := hnan
  simp only [condition_out_of_range, Bool.or_eq_false_iff] at hoor
  obtain ⟨⟨⟨⟨⟨⟨⟨ho1, ho2⟩, ho3⟩, ho4⟩, ho5⟩, ho6⟩, ho7⟩, ho8⟩ := hoor
  have s1 := isSome_of_isNone_false _ hn2
  have s2 := isSome_of_isNone_false _ hn1
  have s3 := isSome_of_isNone_false _ hn4
  have s4 := isSome_of_isNone_false _ hn3
  exact ⟨s1, s2, s3, s4,
    boundedCell_of _ _ _ hn1 ho1 ho2, boundedCell_of _ _ _ hn2 ho3 ho4,
    boundedCell_of _ _ _ hn3 ho5 ho6, boundedCell_of _ _ _ hn4 ho7 ho8,
    geodesicCell_isSome dist r s1 s2 s3 s4⟩

/-- Witness for C10 at a concrete input: the surviving row of `dfPair`. -/
theorem claim_C10_geodesic_inputs_witness :
    ({ rowValid with pickup_hour := some 9 } : Row).pickup_latitude.isSome = true ∧
    ({ rowValid with pickup_hour := some 9 } : Row).pickup_longitude.isSome = true ∧
    ({ rowValid with pickup_hour := some 9 } : Row).dropoff_latitude.isSome = true ∧
    ({ rowValid with pickup_hour := some 9 } : Row).dropoff_longitude.isSome = true ∧
    boundedCell ({ rowValid with pickup_hour := some 9 } : Row).pickup_longitude (-75) (-73) = true ∧
    boundedCell ({ rowValid with pickup_hour := some 9 } : Row).pickup_latitude 40 41 = true ∧
    boundedCell ({ rowValid with pickup_hour := some 9 } : Row).dropoff_longitude (-75) (-73) = true ∧
    boundedCell ({ rowValid with pickup_hour := some 9 } : Row).dropoff_latitude 40 41 = true ∧
    (geodesicCell dist1 { rowValid with pickup_hour := some 9 }).isSome = true :=
  claim_C10_geodesic_inputs dist1 (-75) (-73) 40 41 dfPair
    { rowValid with pickup_hour := some 9 } (by decide)

end UberCleaning
